import Mathlib

/-!
Verification of the notihub provider-abstraction layer.

The embedding models Python dictionaries as insertion-ordered association
lists (`Dict`), JSON values as the inductive `JValue`, and the AWS Pinpoint
message builders, envelope assembly and endpoint lookups of
`notihub/notifiers/aws/clients/pinpoint_client.py` as pure Lean functions.
The factory `notihub/client.py` and the Twilio adapter round out the model.
-/

/-- A JSON value, as produced by the payload builders.  Numbers are modelled
as integers, which covers every numeric literal the client emits. -/
inductive JValue where
  | jnull : JValue
  | str : String → JValue
  | num : Int → JValue
  | obj : List (String × JValue) → JValue
deriving Repr

/-- A Python dict with string keys, modelled as an insertion-ordered
association list, matching CPython's ordered-dict semantics. -/
abbrev Dict := List (String × JValue)

/-- Python dict assignment `d[k] = v`: replace the value in place if the key
exists (keeping its original position), otherwise append at the end. -/
def dset : Dict → String → JValue → Dict
  | [], k, v => [(k, v)]
  | (k', v') :: rest, k, v =>
      if k' = k then (k', v) :: rest else (k', v') :: dset rest k v

/-- Python dict lookup `d.get(k)`: the value at the first matching key. -/
def dget : Dict → String → Option JValue
  | [], _ => none
  | (k', v') :: rest, k => if k' = k then some v' else dget rest k

/-- Python `k in d`. -/
def hasKey (d : Dict) (k : String) : Bool :=
  (dget d k).isSome

/-- Python `{**a, **b}` / `a.update(b)`: fold dict assignment of `b`'s
entries, in order, into `a`. -/
def dmerge (a b : Dict) : Dict :=
  b.foldl (fun d kv => dset d kv.1 kv.2) a

/-- Python truthiness of an `Optional[str]`: `None` and `""` are falsy. -/
def truthyOpt : Option String → Bool
  | none => false
  | some s => !(s == "")

/-- `if o: d[k] = o` for an `Optional[str]` value `o`. -/
def setOptTruthy (d : Dict) (k : String) : Option String → Dict
  | none => d
  | some s => if s == "" then d else dset d k (.str s)

/-- `if o is not None: d[k] = o` for an `Optional[int]` value `o`. -/
def setOptNum (d : Dict) (k : String) : Option Int → Dict
  | none => d
  | some t => dset d k (.num t)

/-- An `Optional[str]` as the JSON value Python would serialize it to. -/
def optJson : Option String → JValue
  | none => .jnull
  | some s => .str s

/-- JSON string escaping as in `json.dumps` for the quote and backslash
characters (control-character and non-ASCII escapes are not modelled; no
payload in this development contains them). -/
def jescChar (c : Char) : String :=
  if c = '\\' then "\\\\" else if c = '"' then "\\\"" else String.singleton c

/-- Escape a string for JSON serialization. -/
def jesc (s : String) : String :=
  String.join (s.toList.map jescChar)

/-- A JSON string literal with its surrounding quotes. -/
def jstr (s : String) : String :=
  "\"" ++ jesc s ++ "\""

mutual

/-- `json.dumps` with its default separators (`", "` and `": "`). -/
def jdump : JValue → String
  | .jnull => "null"
  | .str s => jstr s
  | .num n => toString n
  | .obj kvs => "\x7b" ++ jdumpEntries kvs ++ "\x7d"

/-- Serialize the entries of a JSON object, comma-separated, in order. -/
def jdumpEntries : List (String × JValue) → String
  | [] => ""
  | [(k, v)] => jstr k ++ ": " ++ jdump v
  | (k, v) :: kv :: rest => jstr k ++ ": " ++ jdump v ++ ", " ++ jdumpEntries (kv :: rest)

end

/-- `PinpointClient._prepare_custom_data`: a copy of `custom_data`
(empty when `None`) with `deeplink` and `image_url` force-set. -/
def prepare_custom_data (custom_data : Option Dict)
    (deep_link_url image_url : Option String) : Dict :=
  dset (dset (custom_data.getD []) "deeplink" (optJson deep_link_url))
    "image_url" (optJson image_url)

/-- The `aps_payload` built inside `PinpointClient._build_apns_message`. -/
def aps_payload (title body : String) (image_url : Option String)
    (silent_push : Bool) : Dict :=
  let p : Dict := [("sound", .str "default")]
  let p := if silent_push then dset p "content-available" (.num 1)
    else dset p "alert" (.obj [("title", .str title), ("body", .str body)])
  if truthyOpt image_url then dset p "mutable-content" (.num 1) else p

/-- `PinpointClient._build_apns_message`. -/
def build_apns_message (title body action : String)
    (deep_link_url image_url : Option String) (silent_push : Bool)
    (custom_data : Dict) : Dict :=
  let payload_root := dmerge [("aps", .obj (aps_payload title body image_url silent_push))] custom_data
  let message : Dict := [("Action", .str action), ("RawContent", .str (jdump (.obj payload_root)))]
  setOptTruthy message "Url" deep_link_url

/-- The `notification` block built inside `PinpointClient._build_gcm_message`
for the non-silent branch. -/
def gcm_notification (title body : String) (image_url : Option String) : Dict :=
  let n : Dict := [("title", .str title), ("body", .str body)]
  setOptTruthy n "image" image_url

/-- The `gcm_payload` built inside `PinpointClient._build_gcm_message`. -/
def gcm_payload (title body : String) (image_url : Option String)
    (silent_push : Bool) (custom_data : Dict)
    (time_to_live : Option Int) (priority : Option String) : Dict :=
  let payload_data := dmerge custom_data [("title", .str title), ("body", .str body)]
  let p : Dict := [("data", .obj payload_data)]
  let p := if silent_push then dset p "content_available" (.num 1)
    else dset p "notification" (.obj (gcm_notification title body image_url))
  let p := setOptTruthy p "priority" priority
  setOptNum p "time_to_live" time_to_live

/-- `PinpointClient._build_gcm_message`. -/
def build_gcm_message (title body action : String)
    (deep_link_url image_url : Option String) (silent_push : Bool)
    (custom_data : Dict) (time_to_live : Option Int)
    (priority : Option String) : Dict :=
  let message : Dict := [("Action", .str action),
    ("RawContent", .str (jdump (.obj (gcm_payload title body image_url silent_push custom_data time_to_live priority))))]
  setOptTruthy message "Url" deep_link_url

/-- `PinpointClient._build_default_message`. -/
def build_default_message (title body action : String)
    (deep_link_url : Option String) : Dict :=
  let message : Dict := [("Action", .str action), ("Title", .str title), ("Body", .str body)]
  setOptTruthy message "Url" deep_link_url

/-- The `action` computed at the top of
`PinpointClient.send_pinpoint_push_notification`:
`"DEEP_LINK" if deep_link_url else "OPEN_APP"`. -/
def sendAction (deep_link_url : Option String) : String :=
  if truthyOpt deep_link_url then "DEEP_LINK" else "OPEN_APP"

/-- The `Endpoints` dict comprehension
`\x7bendpoint_id: \x7b\x7d for endpoint_id in endpoint_ids\x7d`. -/
def endpointsMap (endpoint_ids : List String) : Dict :=
  endpoint_ids.foldl (fun d e => dset d e (.obj [])) []

/-- The `message_request` assembled by
`PinpointClient.send_pinpoint_push_notification` before the transport call. -/
def pinpointMessageRequest (endpoint_ids : List String) (title body : String)
    (deep_link_url image_url : Option String) (custom_data : Option Dict)
    (silent_push : Bool) (time_to_live : Option Int)
    (priority : Option String) : Dict :=
  let action := sendAction deep_link_url
  let processed_custom_data := prepare_custom_data custom_data deep_link_url image_url
  let apns_message := build_apns_message title body action deep_link_url image_url silent_push processed_custom_data
  let gcm_message := build_gcm_message title body action deep_link_url image_url silent_push processed_custom_data time_to_live priority
  let default_message := build_default_message title body action deep_link_url
  [("Endpoints", .obj (endpointsMap endpoint_ids)),
   ("MessageConfiguration", .obj
     [("APNSMessage", .obj apns_message),
      ("GCMMessage", .obj gcm_message),
      ("DefaultPushNotificationMessage", .obj default_message)])]

/-- A failure raised by the Pinpoint transport (boto3).  `notFound` is the
client's `exceptions.NotFoundException`, carrying
`e.response["Error"]["Message"]`; `other` is any other transport failure. -/
inductive PinpointFailure where
  | notFound : String → PinpointFailure
  | other : String → PinpointFailure
deriving DecidableEq, Repr

/-- The Pinpoint transport capability the client depends on: each operation
returns a structured response or raises a typed failure. -/
structure PinpointTransport where
  send_messages : String → Dict → Except PinpointFailure Dict
  get_endpoint : String → String → Except PinpointFailure Dict
  get_user_endpoints : String → String → Except PinpointFailure Dict

/-- `PinpointClient.send_pinpoint_push_notification`: assemble the
`message_request` and submit it via the transport's `send_messages`, with no
exception handling of its own. -/
def send_pinpoint_push_notification (t : PinpointTransport)
    (application_id : String) (endpoint_ids : List String)
    (title body : String) (deep_link_url image_url : Option String)
    (custom_data : Option Dict) (silent_push : Bool)
    (time_to_live : Option Int) (priority : Option String) :
    Except PinpointFailure Dict :=
  t.send_messages application_id
    (pinpointMessageRequest endpoint_ids title body deep_link_url image_url
      custom_data silent_push time_to_live priority)

/-- `PinpointClient.get_pinpoint_endpoint`: pass through the transport's
response, translating only `NotFoundException` into `\x7b"error": message\x7d`. -/
def get_pinpoint_endpoint (t : PinpointTransport)
    (application_id endpoint_id : String) : Except PinpointFailure Dict :=
  match t.get_endpoint application_id endpoint_id with
  | .ok r => .ok r
  | .error (.notFound msg) => .ok [("error", .str msg)]
  | .error e => .error e

/-- `PinpointClient.get_pinpoint_user_endpoints`: pass through the
transport's response, translating only `NotFoundException` into
`\x7b"error": message\x7d`. -/
def get_pinpoint_user_endpoints (t : PinpointTransport)
    (application_id user_id : String) : Except PinpointFailure Dict :=
  match t.get_user_endpoints application_id user_id with
  | .ok r => .ok r
  | .error (.notFound msg) => .ok [("error", .str msg)]
  | .error e => .error e

/-- A failure raised by a notifier adapter: `validationError` models Python's
`ValueError` for missing mandatory configuration, `notSupported` models the
`NotImplementedError` for channels an adapter cannot serve, and
`transportFailure` wraps a failure of the underlying gateway call. -/
inductive NotifierError where
  | validationError : String → NotifierError
  | notSupported : NotifierError
  | transportFailure : String → NotifierError
deriving DecidableEq, Repr

/-- The SMS-gateway (Twilio) transport capability:
`create_message(from, to, body)` returns the transport-assigned message
identifier or fails. -/
structure TwilioTransport where
  create_message : String → String → String → Except String String

/-- Modelled from the spec: the `TwilioNotifier` adapter
(`notihub/notifiers/twilio/notifier.py` is not under `src/`; only its tests
are).  Per spec section 4.3 it holds the mandatory account SID and auth token
and an optional origin phone number. -/
structure TwilioNotifier where
  account_sid : Option String
  auth_token : Option String
  twilio_phone_number : Option String

/-- Modelled from the spec: `TwilioNotifier.send_sms_notification` requires a
configured origin phone number and fails with a validation error before any
transport call when none is configured; on success it returns the
transport-assigned message identifier.  The validation message string is the
one the repository's test `test_send_sms_notification_no_twilio_phone_number`
asserts exactly. -/
def TwilioNotifier.send_sms_notification (n : TwilioNotifier)
    (t : TwilioTransport) (phone_number message : String) :
    Except NotifierError String :=
  match n.twilio_phone_number with
  | none => .error (.validationError "Twilio phone number must be provided for sending SMS.")
  | some from_number =>
      match t.create_message from_number phone_number message with
      | .ok sid => .ok sid
      | .error e => .error (.transportFailure e)

/-- Modelled from the spec: `TwilioNotifier.send_email_notification` always
fails with the not-supported condition — the adapter is SMS-only; no
transport is consulted. -/
def TwilioNotifier.send_email_notification (_n : TwilioNotifier)
    (_subject : Option String) (_email_data : Dict)
    (_recipients : List String) (_sender _template : String) :
    Except NotifierError Dict :=
  .error .notSupported

/-- Modelled from the spec: `TwilioNotifier.send_push_notification` always
fails with the not-supported condition — the adapter is SMS-only; no
transport is consulted. -/
def TwilioNotifier.send_push_notification (_n : TwilioNotifier)
    (_device _message : String) : Except NotifierError Dict :=
  .error .notSupported

/-- Modelled from the spec: the `AWSNotifier` adapter record
(`notihub/notifiers/aws/notifier.py` is not under `src/`).  All three
credentials are optional; absent credentials fall back to boto3's ambient
default resolution, so construction performs no validation. -/
structure AWSNotifier where
  aws_access_key_id : Option String
  aws_secret_access_key : Option String
  region_name : Option String
deriving DecidableEq, Repr

/-- `NotifierClient.get_aws_notifier` (from `notihub/client.py`): a stateless
factory that constructs an `AWSNotifier` from its three optional credential
parameters, defaulting each to `None`, with no validation. -/
def NotifierClient.get_aws_notifier
    (aws_access_key_id : Option String := none)
    (aws_secret_access_key : Option String := none)
    (region_name : Option String := none) : AWSNotifier :=
  { aws_access_key_id := aws_access_key_id,
    aws_secret_access_key := aws_secret_access_key,
    region_name := region_name }

/-! ### Dictionary lemmas -/

theorem dget_dset (d : Dict) (k k' : String) (v : JValue) :
    dget (dset d k v) k' = if k = k' then some v else dget d k' := by
  induction d with
  | nil => simp [dset, dget]
  | cons hd tl ih =>
      obtain ⟨k₀, v₀⟩ := hd
      by_cases h₀ : k₀ = k
      · subst h₀
        by_cases h₁ : k₀ = k'
        · subst h₁; simp [dset, dget]
        · simp [dset, dget, h₁]
      · by_cases h₁ : k₀ = k'
        · subst h₁
          have : ¬ k = k₀ := fun h => h₀ h.symm
          simp [dset, dget, h₀, this]
        · simp [dset, dget, h₀, h₁, ih]

theorem dget_dset_self (d : Dict) (k : String) (v : JValue) :
    dget (dset d k v) k = some v := by
  simp [dget_dset]

theorem dget_dset_ne (d : Dict) (k k' : String) (v : JValue) (h : k ≠ k') :
    dget (dset d k v) k' = dget d k' := by
  simp [dget_dset, h]

theorem hasKey_dset_ne (d : Dict) (k k' : String) (v : JValue) (h : k ≠ k') :
    hasKey (dset d k v) k' = hasKey d k' := by
  simp [hasKey, dget_dset_ne _ _ _ _ h]

theorem dset_eq_of_dget (d : Dict) (k : String) (v : JValue)
    (h : dget d k = some v) : dset d k v = d := by
  induction d with
  | nil => simp [dget] at h
  | cons hd tl ih =>
      obtain ⟨k₀, v₀⟩ := hd
      by_cases h₀ : k₀ = k
      · subst h₀
        simp [dget] at h
        simp [dset, h]
      · simp [dget, h₀] at h
        simp [dset, h₀, ih h]

theorem dget_setOptTruthy_ne (d : Dict) (k k' : String) (o : Option String)
    (h : k ≠ k') : dget (setOptTruthy d k o) k' = dget d k' := by
  cases o with
  | none => rfl
  | some s =>
      by_cases hs : s == ""
      · simp [setOptTruthy, hs]
      · simp [setOptTruthy, hs, dget_dset_ne _ _ _ _ h]

theorem hasKey_setOptTruthy_ne (d : Dict) (k k' : String) (o : Option String)
    (h : k ≠ k') : hasKey (setOptTruthy d k o) k' = hasKey d k' := by
  simp [hasKey, dget_setOptTruthy_ne _ _ _ _ h]

theorem dget_setOptNum_ne (d : Dict) (k k' : String) (o : Option Int)
    (h : k ≠ k') : dget (setOptNum d k o) k' = dget d k' := by
  cases o with
  | none => rfl
  | some t => exact dget_dset_ne _ _ _ _ h

theorem hasKey_setOptNum_ne (d : Dict) (k k' : String) (o : Option Int)
    (h : k ≠ k') : hasKey (setOptNum d k o) k' = hasKey d k' := by
  simp [hasKey, dget_setOptNum_ne _ _ _ _ h]

theorem dget_setOptTruthy_some (d : Dict) (k u : String) (hu : u ≠ "") :
    dget (setOptTruthy d k (some u)) k = some (.str u) := by
  simp [setOptTruthy, hu, dget_dset_self]

theorem hasKey_append (a b : Dict) (k : String) :
    hasKey (a ++ b) k = (hasKey a k || hasKey b k) := by
  induction a with
  | nil => simp [hasKey, dget]
  | cons hd tl ih =>
      obtain ⟨k₀, v₀⟩ := hd
      by_cases h₀ : k₀ = k
      · simp [hasKey, dget, h₀]
      · simpa [hasKey, dget, h₀] using ih

theorem dset_not_hasKey (d : Dict) (k : String) (v : JValue)
    (h : hasKey d k = false) : dset d k v = d ++ [(k, v)] := by
  induction d with
  | nil => simp [dset]
  | cons hd tl ih =>
      obtain ⟨k₀, v₀⟩ := hd
      by_cases h₀ : k₀ = k
      · simp [hasKey, dget, h₀] at h
      · simp [hasKey, dget, h₀] at h
        simp only [hasKey] at ih
        simp [dset, h₀, ih (by simp [h])]

theorem foldl_dset_fresh (ids : List String) (acc : Dict) (hnd : ids.Nodup)
    (hfresh : ∀ e ∈ ids, hasKey acc e = false) :
    ids.foldl (fun d e => dset d e (.obj [])) acc
      = acc ++ ids.map (fun e => (e, JValue.obj [])) := by
  induction ids generalizing acc with
  | nil => simp
  | cons e rest ih =>
      rw [List.nodup_cons] at hnd
      have h1 : ∀ x ∈ rest, hasKey (acc ++ [(e, JValue.obj [])]) x = false := by
        intro x hx
        have hxe : ¬ e = x := fun h => hnd.1 (h ▸ hx)
        rw [hasKey_append, hfresh x (List.mem_cons_of_mem e hx)]
        simp [hasKey, dget, hxe]
      simp only [List.foldl_cons, List.map_cons]
      rw [dset_not_hasKey _ _ _ (hfresh e (List.mem_cons_self e rest)),
        ih (acc ++ [(e, JValue.obj [])]) hnd.2 h1, List.append_assoc]
      rfl

theorem dget_map_empty (ids : List String) (e : String) (he : e ∈ ids) :
    dget (ids.map (fun x => (x, JValue.obj []))) e = some (.obj []) := by
  induction ids with
  | nil => cases he
  | cons x rest ih =>
      by_cases hx : x = e
      · simp [dget, hx]
      · have hmem : e ∈ rest := by
          rcases List.mem_cons.mp he with h | h
          · exact absurd h.symm hx
          · exact h
        simp [dget, hx, ih hmem]

theorem endpointsMap_eq_map (ids : List String) (h : ids.Nodup) :
    endpointsMap ids = ids.map (fun e => (e, JValue.obj [])) := by
  unfold endpointsMap
  rw [foldl_dset_fresh ids [] h (fun e _ => rfl)]
  rfl

/-! ### Claim theorems -/

/-- Claim C3: for every caller-supplied `custom_data` mapping (including
absent) and every pair of optional deep-link and image URLs, the enriched
mapping contains the keys `deeplink` and `image_url`, set to null when the
corresponding input is absent, and enrichment is idempotent: enriching an
already-enriched mapping with the same URLs yields an equal mapping. -/
theorem prepare_custom_data_spec (cd : Option Dict) (dl image : Option String) :
    dget (prepare_custom_data cd dl image) "deeplink" = some (optJson dl) ∧
    dget (prepare_custom_data cd dl image) "image_url" = some (optJson image) ∧
    (dl = none → dget (prepare_custom_data cd dl image) "deeplink" = some .jnull) ∧
    (image = none → dget (prepare_custom_data cd dl image) "image_url" = some .jnull) ∧
    prepare_custom_data (some (prepare_custom_data cd dl image)) dl image
      = prepare_custom_data cd dl image := by
  have h1 : dget (prepare_custom_data cd dl image) "deeplink" = some (optJson dl) := by
    unfold prepare_custom_data
    rw [dget_dset_ne _ _ _ _ (by decide), dget_dset_self]
  have h2 : dget (prepare_custom_data cd dl image) "image_url" = some (optJson image) := by
    unfold prepare_custom_data
    rw [dget_dset_self]
  refine ⟨h1, h2, ?_, ?_, ?_⟩
  · intro h; subst h; exact h1
  · intro h; subst h; exact h2
  · show dset (dset (prepare_custom_data cd dl image) "deeplink" (optJson dl))
        "image_url" (optJson image) = prepare_custom_data cd dl image
    rw [dset_eq_of_dget _ _ _ h1, dset_eq_of_dget _ _ _ h2]

/-- Concrete instance of `prepare_custom_data_spec` with both URLs absent:
the enriched map carries explicit nulls for `deeplink` and `image_url`. -/
theorem prepare_custom_data_spec_witness :
    dget (prepare_custom_data (some [("a", .num 1)]) none none) "deeplink" = some .jnull ∧
    dget (prepare_custom_data (some [("a", .num 1)]) none none) "image_url" = some .jnull := by
  have h := prepare_custom_data_spec (some [("a", .num 1)]) none none
  exact ⟨h.2.2.1 rfl, h.2.2.2.1 rfl⟩

/-- Claim C1: with a deep-link URL present the computed action is
`"DEEP_LINK"` and the `Url` key is set to that URL identically in the APNS,
GCM and default messages; with the deep link absent the action is
`"OPEN_APP"` and no `Url` key appears in any of the three messages. -/
theorem deep_link_action_and_url (title body : String) (dl image : Option String)
    (silent : Bool) (cd : Option Dict) (ttl : Option Int) (prio : Option String) :
    (∀ u, dl = some u → u ≠ "" →
      sendAction dl = "DEEP_LINK" ∧
      dget (build_apns_message title body (sendAction dl) dl image silent
        (prepare_custom_data cd dl image)) "Url" = some (.str u) ∧
      dget (build_gcm_message title body (sendAction dl) dl image silent
        (prepare_custom_data cd dl image) ttl prio) "Url" = some (.str u) ∧
      dget (build_default_message title body (sendAction dl) dl) "Url" = some (.str u)) ∧
    (dl = none →
      sendAction dl = "OPEN_APP" ∧
      hasKey (build_apns_message title body (sendAction dl) dl image silent
        (prepare_custom_data cd dl image)) "Url" = false ∧
      hasKey (build_gcm_message title body (sendAction dl) dl image silent
        (prepare_custom_data cd dl image) ttl prio) "Url" = false ∧
      hasKey (build_default_message title body (sendAction dl) dl) "Url" = false) := by
  constructor
  · rintro u rfl hu
    refine ⟨by simp [sendAction, truthyOpt, hu], ?_, ?_, ?_⟩
    · exact dget_setOptTruthy_some _ _ _ hu
    · exact dget_setOptTruthy_some _ _ _ hu
    · exact dget_setOptTruthy_some _ _ _ hu
  · rintro rfl
    exact ⟨rfl, rfl, rfl, rfl⟩

/-- Concrete instance of `deep_link_action_and_url` at the deep link
`"https://x/d"`: action `"DEEP_LINK"` and the `Url` key in all three
messages. -/
theorem deep_link_action_and_url_witness :
    sendAction (some "https://x/d") = "DEEP_LINK" ∧
    dget (build_apns_message "Hi" "there" (sendAction (some "https://x/d"))
      (some "https://x/d") none false
      (prepare_custom_data none (some "https://x/d") none)) "Url" = some (.str "https://x/d") ∧
    dget (build_gcm_message "Hi" "there" (sendAction (some "https://x/d"))
      (some "https://x/d") none false
      (prepare_custom_data none (some "https://x/d") none) none none) "Url" = some (.str "https://x/d") ∧
    dget (build_default_message "Hi" "there" (sendAction (some "https://x/d"))
      (some "https://x/d")) "Url" = some (.str "https://x/d") :=
  (deep_link_action_and_url "Hi" "there" (some "https://x/d") none false none
    none none).1 "https://x/d" rfl (by decide)

/-- Claim C9: the factory `get_aws_notifier` takes all three credential
parameters as optional (defaulting to `None`), performs no validation, and
always constructs the `AWSNotifier` adapter holding exactly the supplied
credentials; calling it with no arguments yields the all-ambient adapter. -/
theorem get_aws_notifier_constructs (a s r : Option String) :
    NotifierClient.get_aws_notifier a s r = AWSNotifier.mk a s r ∧
    (NotifierClient.get_aws_notifier : AWSNotifier) = AWSNotifier.mk none none none :=
  ⟨rfl, rfl⟩

/-- Claim C10: the enriched custom data is merged into the APNS payload root
after the `aps` entry with last-write-wins semantics, so a caller-supplied
`custom_data` key named `"aps"` replaces the entire constructed aps payload:
the serialized `RawContent` carries the caller's value and none of the
`sound` / `alert` / `content-available` / `mutable-content` entries. -/
theorem apns_custom_data_aps_collision :
    dmerge [("aps", .obj (aps_payload "Hi" "there" none false))]
        (prepare_custom_data (some [("aps", .str "boom")]) none none)
      = [("aps", .str "boom"), ("deeplink", .jnull), ("image_url", .jnull)] ∧
    build_apns_message "Hi" "there" "OPEN_APP" none none false
        (prepare_custom_data (some [("aps", .str "boom")]) none none)
      = [("Action", .str "OPEN_APP"),
         ("RawContent", .str "\x7b\"aps\": \"boom\", \"deeplink\": null, \"image_url\": null\x7d")] :=
  ⟨rfl, rfl⟩

/-- Claim C2: with `silent_push = true` the built aps payload carries
`content-available = 1` and no `alert` key, and the built GCM payload carries
`content_available = 1` and no `notification` block; with
`silent_push = false` the aps payload carries `alert = \x7btitle, body\x7d` and the
GCM payload carries a `notification` block with those title and body. -/
theorem silent_push_payloads (title body : String) (image : Option String)
    (silent : Bool) (cd : Dict) (ttl : Option Int) (prio : Option String) :
    (silent = true →
      dget (aps_payload title body image silent) "content-available" = some (.num 1) ∧
      hasKey (aps_payload title body image silent) "alert" = false ∧
      dget (gcm_payload title body image silent cd ttl prio) "content_available" = some (.num 1) ∧
      hasKey (gcm_payload title body image silent cd ttl prio) "notification" = false) ∧
    (silent = false →
      dget (aps_payload title body image silent) "alert"
        = some (.obj [("title", .str title), ("body", .str body)]) ∧
      ∃ nb, dget (gcm_payload title body image silent cd ttl prio) "notification" = some (.obj nb) ∧
        dget nb "title" = some (.str title) ∧ dget nb "body" = some (.str body)) := by
  constructor
  · rintro rfl
    refine ⟨?_, ?_, ?_, ?_⟩
    · cases h : truthyOpt image <;>
        simp [aps_payload, h, dget_dset_self, dget_dset_ne]
    · cases h : truthyOpt image <;>
        simp [aps_payload, h, hasKey_dset_ne, hasKey, dget]
    · simp [gcm_payload, dget_setOptNum_ne, dget_setOptTruthy_ne, dget_dset_self]
    · simp [gcm_payload, hasKey, dget_setOptNum_ne, dget_setOptTruthy_ne,
        dget_dset_ne, dget]
  · rintro rfl
    constructor
    · cases h : truthyOpt image <;>
        simp [aps_payload, h, dget_dset_self, dget_dset_ne]
    · refine ⟨gcm_notification title body image, ?_, ?_, ?_⟩
      · simp [gcm_payload, dget_setOptNum_ne, dget_setOptTruthy_ne, dget_dset_self]
      · simp [gcm_notification, dget_setOptTruthy_ne, dget]
      · simp [gcm_notification, dget_setOptTruthy_ne, dget]

/-- Concrete instances of `silent_push_payloads` for a silent and a
non-silent push. -/
theorem silent_push_payloads_witness :
    (dget (aps_payload "Hi" "there" none true) "content-available" = some (.num 1) ∧
      hasKey (aps_payload "Hi" "there" none true) "alert" = false ∧
      dget (gcm_payload "Hi" "there" none true [] none none) "content_available" = some (.num 1) ∧
      hasKey (gcm_payload "Hi" "there" none true [] none none) "notification" = false) ∧
    (dget (aps_payload "Hi" "there" none false) "alert"
        = some (.obj [("title", .str "Hi"), ("body", .str "there")]) ∧
      ∃ nb, dget (gcm_payload "Hi" "there" none false [] none none) "notification" = some (.obj nb) ∧
        dget nb "title" = some (.str "Hi") ∧ dget nb "body" = some (.str "there")) :=
  ⟨(silent_push_payloads "Hi" "there" none true [] none none).1 rfl,
   (silent_push_payloads "Hi" "there" none false [] none none).2 rfl⟩

/-- Claim C4: with a non-empty `image_url` and `silent_push = false`, the
built aps payload carries `mutable-content = 1` and the GCM `notification`
block carries an `image` key equal to that URL. -/
theorem image_url_payloads (title body : String) (u : String) (hu : u ≠ "")
    (cd : Dict) (ttl : Option Int) (prio : Option String) :
    dget (aps_payload title body (some u) false) "mutable-content" = some (.num 1) ∧
    ∃ nb, dget (gcm_payload title body (some u) false cd ttl prio) "notification" = some (.obj nb) ∧
      dget nb "image" = some (.str u) := by
  have htr : truthyOpt (some u) = true := by simp [truthyOpt, hu]
  constructor
  · simp [aps_payload, htr, dget_dset_self]
  · refine ⟨gcm_notification title body (some u), ?_, ?_⟩
    · simp [gcm_payload, dget_setOptNum_ne, dget_setOptTruthy_ne, dget_dset_self]
    · simp [gcm_notification, setOptTruthy, hu, dget_dset_self]

/-- Concrete instance of `image_url_payloads` at the image URL of the
spec's end-to-end example. -/
theorem image_url_payloads_witness :
    dget (aps_payload "Hi" "there" (some "http://x/y.png") false) "mutable-content" = some (.num 1) ∧
    ∃ nb, dget (gcm_payload "Hi" "there" (some "http://x/y.png") false [] none none) "notification"
        = some (.obj nb) ∧
      dget nb "image" = some (.str "http://x/y.png") :=
  image_url_payloads "Hi" "there" "http://x/y.png" (by decide) [] none none

/-- Counterexample to claim C5 as stated: passing the two-element endpoint
list `["e1", "e1"]` yields an `Endpoints` mapping with a single key, not
exactly `N = 2` keys, because the dict comprehension collapses duplicate
ids. -/
theorem endpoints_envelope_duplicate_counterexample :
    (["e1", "e1"] : List String).length = 2 ∧
    dget (pinpointMessageRequest ["e1", "e1"] "Hi" "there" none none none false none none)
      "Endpoints" = some (.obj [("e1", .obj [])]) ∧
    ([("e1", JValue.obj [])] : Dict).length = 1 :=
  ⟨rfl, rfl, rfl⟩

/-- Claim C5 (amended): for every list of pairwise-distinct endpoint ids
(including the empty list) the assembled envelope's `Endpoints` mapping has
exactly one key per id — `N` keys for `N` distinct ids — each mapped to an
empty attribute map. -/
theorem endpoints_envelope_distinct (ids : List String) (h : ids.Nodup)
    (title body : String) (dl image : Option String) (cd : Option Dict)
    (silent : Bool) (ttl : Option Int) (prio : Option String) :
    dget (pinpointMessageRequest ids title body dl image cd silent ttl prio)
      "Endpoints" = some (.obj (endpointsMap ids)) ∧
    (endpointsMap ids).length = ids.length ∧
    ∀ e ∈ ids, dget (endpointsMap ids) e = some (.obj []) := by
  refine ⟨rfl, ?_, ?_⟩
  · rw [endpointsMap_eq_map ids h, List.length_map]
  · intro e he
    rw [endpointsMap_eq_map ids h]
    exact dget_map_empty ids e he

/-- Concrete instance of `endpoints_envelope_distinct` at the two distinct
ids of the spec's end-to-end example. -/
theorem endpoints_envelope_distinct_witness :
    dget (pinpointMessageRequest ["e1", "e2"] "Hi" "there" none none none false none none)
      "Endpoints" = some (.obj (endpointsMap ["e1", "e2"])) ∧
    (endpointsMap ["e1", "e2"]).length = (["e1", "e2"] : List String).length ∧
    ∀ e ∈ (["e1", "e2"] : List String), dget (endpointsMap ["e1", "e2"]) e = some (.obj []) :=
  endpoints_envelope_distinct ["e1", "e2"] (by decide) "Hi" "there" none none
    none false none none

/-- Claim C6: `get_pinpoint_endpoint` and `get_pinpoint_user_endpoints`
catch exactly the transport's not-found failure and return the uniform
`\x7b"error": message\x7d` result carrying the transport's error message; any
other transport failure there, and any failure of `send_messages` (not-found
included), propagates unchanged to the caller. -/
theorem not_found_translation (t : PinpointTransport) (app eid uid msg : String)
    (ids : List String) (title body : String) (dl image : Option String)
    (cd : Option Dict) (silent : Bool) (ttl : Option Int) (prio : Option String) :
    (t.get_endpoint app eid = .error (.notFound msg) →
      get_pinpoint_endpoint t app eid = .ok [("error", .str msg)]) ∧
    (t.get_endpoint app eid = .error (.other msg) →
      get_pinpoint_endpoint t app eid = .error (.other msg)) ∧
    (∀ r, t.get_endpoint app eid = .ok r → get_pinpoint_endpoint t app eid = .ok r) ∧
    (t.get_user_endpoints app uid = .error (.notFound msg) →
      get_pinpoint_user_endpoints t app uid = .ok [("error", .str msg)]) ∧
    (t.get_user_endpoints app uid = .error (.other msg) →
      get_pinpoint_user_endpoints t app uid = .error (.other msg)) ∧
    (∀ r, t.get_user_endpoints app uid = .ok r → get_pinpoint_user_endpoints t app uid = .ok r) ∧
    (∀ f : PinpointFailure,
      t.send_messages app (pinpointMessageRequest ids title body dl image cd silent ttl prio)
          = .error f →
      send_pinpoint_push_notification t app ids title body dl image cd silent ttl prio
          = .error f) := by
  refine ⟨?_, ?_, ?_, ?_, ?_, ?_, ?_⟩
  · intro h; simp [get_pinpoint_endpoint, h]
  · intro h; simp [get_pinpoint_endpoint, h]
  · intro r h; simp [get_pinpoint_endpoint, h]
  · intro h; simp [get_pinpoint_user_endpoints, h]
  · intro h; simp [get_pinpoint_user_endpoints, h]
  · intro r h; simp [get_pinpoint_user_endpoints, h]
  · intro f h; simpa [send_pinpoint_push_notification] using h

/-- Concrete instance of `not_found_translation`: a transport whose lookups
fail not-found is translated to the uniform error dict, while a failing
`send_messages` propagates its failure. -/
theorem not_found_translation_witness :
    get_pinpoint_endpoint
      ⟨fun _ _ => .error (.other "boom"), fun _ _ => .error (.notFound "missing"),
        fun _ _ => .error (.notFound "missing")⟩ "app" "e1"
      = .ok [("error", .str "missing")] ∧
    get_pinpoint_user_endpoints
      ⟨fun _ _ => .error (.other "boom"), fun _ _ => .error (.notFound "missing"),
        fun _ _ => .error (.notFound "missing")⟩ "app" "u1"
      = .ok [("error", .str "missing")] ∧
    send_pinpoint_push_notification
      ⟨fun _ _ => .error (.other "boom"), fun _ _ => .error (.notFound "missing"),
        fun _ _ => .error (.notFound "missing")⟩ "app" ["e1"] "Hi" "there"
      none none none false none none
      = .error (.other "boom") :=
  ⟨(not_found_translation _ "app" "e1" "u1" "missing" ["e1"] "Hi" "there"
      none none none false none none).1 rfl,
   (not_found_translation _ "app" "e1" "u1" "missing" ["e1"] "Hi" "there"
      none none none false none none).2.2.2.1 rfl,
   (not_found_translation _ "app" "e1" "u1" "missing" ["e1"] "Hi" "there"
      none none none false none none).2.2.2.2.2.2 (.other "boom") rfl⟩

/-- Claim C7: on the Twilio adapter, `send_email_notification` and
`send_push_notification` fail with the not-supported condition for every
notifier state and every combination of arguments, and no transport call is
involved (neither operation consults a transport). -/
theorem twilio_unsupported_channels (n : TwilioNotifier) (subject : Option String)
    (email_data : Dict) (recipients : List String) (sender template : String)
    (device message : String) :
    n.send_email_notification subject email_data recipients sender template
      = .error .notSupported ∧
    n.send_push_notification device message = .error .notSupported :=
  ⟨rfl, rfl⟩

/-- Counterexample to claim C8 as stated: with no origin phone number
configured, the validation failure's message is the test-asserted
"Twilio phone number must be provided for sending SMS.", not
"origin phone number must be provided". -/
theorem twilio_sms_message_counterexample :
    TwilioNotifier.send_sms_notification ⟨some "sid", some "token", none⟩
      ⟨fun _ _ _ => .ok "SM1"⟩ "+19702927873" "Test SMS message"
      = .error (.validationError "Twilio phone number must be provided for sending SMS.") ∧
    "Twilio phone number must be provided for sending SMS." ≠
      "origin phone number must be provided" :=
  ⟨rfl, by decide⟩

/-- Claim C8 (amended): with no origin phone number configured,
`send_sms_notification` fails with a validation error whose message is
"Twilio phone number must be provided for sending SMS.", for every transport
and arguments — the transport is never invoked. -/
theorem twilio_sms_requires_origin_number (n : TwilioNotifier)
    (h : n.twilio_phone_number = none) (t : TwilioTransport)
    (phone_number message : String) :
    n.send_sms_notification t phone_number message
      = .error (.validationError "Twilio phone number must be provided for sending SMS.") := by
  unfold TwilioNotifier.send_sms_notification
  rw [h]

/-- Concrete instance of `twilio_sms_requires_origin_number`. -/
theorem twilio_sms_requires_origin_number_witness :
    TwilioNotifier.send_sms_notification ⟨some "sid", some "token", none⟩
      ⟨fun _ _ _ => .error "transport reached"⟩ "+19702927873" "Test SMS message"
      = .error (.validationError "Twilio phone number must be provided for sending SMS.") :=
  twilio_sms_requires_origin_number ⟨some "sid", some "token", none⟩ rfl
    ⟨fun _ _ _ => .error "transport reached"⟩ "+19702927873" "Test SMS message"
